import Mathlib

/-!
# Verification of the `usdt` DSL-to-artifact generator

A shallow embedding of the `usdt` command-line tool (`usdt/src/main.rs`)
together with the core data model it drives: D provider files describing
providers, probes and typed argument lists, the three generators (ABI
declaration, ABI trampoline definition, host binding), and the invocation
type-checker that validates probe-firing call sites.

The command-line layer (`print_build_script`, `print_formatted_output`,
the `Cmd` enum) is embedded directly from `usdt/src/main.rs`.  The core
library (parser output model, type mapper, the three generators and the
invocation type-checker) is not part of the given sources, so those
definitions are modelled from the specification, as marked in their doc
comments.
-/

namespace Usdt

/-! ## Data model -/

/-- Modelled from the spec: the DSL's fixed, closed set of primitive type
tags (signed/unsigned integers of fixed widths, and a pointer-like string
type).  The concrete `dtrace_parser` AST type is not in the given sources. -/
inductive DType
  | u8
  | u16
  | u32
  | u64
  | i8
  | i16
  | i32
  | i64
  | str
deriving DecidableEq

/-- Modelled from the spec: ABI-level types — fixed width with explicit
signedness, or a pointer-sized opaque slot for string/pointer-like types. -/
inductive AbiType
  | abiU8
  | abiU16
  | abiU32
  | abiU64
  | abiI8
  | abiI16
  | abiI32
  | abiI64
  | abiPtr
deriving DecidableEq

/-- Modelled from the spec: host-language types appearing in the generated
host binding (integer types and a string/byte-reference type). -/
inductive HostType
  | hU8
  | hU16
  | hU32
  | hU64
  | hI8
  | hI16
  | hI32
  | hI64
  | hStr
deriving DecidableEq

/-- Modelled from the spec: the closed, total table from DSL types to ABI
types.  Pointer/string-like DSL types map to pointer-sized ABI slots. -/
def abiTypeOf : DType → AbiType
  | DType.u8 => AbiType.abiU8
  | DType.u16 => AbiType.abiU16
  | DType.u32 => AbiType.abiU32
  | DType.u64 => AbiType.abiU64
  | DType.i8 => AbiType.abiI8
  | DType.i16 => AbiType.abiI16
  | DType.i32 => AbiType.abiI32
  | DType.i64 => AbiType.abiI64
  | DType.str => AbiType.abiPtr

/-- Modelled from the spec: the closed, total table from DSL types to
host-language types. -/
def hostTypeOf : DType → HostType
  | DType.u8 => HostType.hU8
  | DType.u16 => HostType.hU16
  | DType.u32 => HostType.hU32
  | DType.u64 => HostType.hU64
  | DType.i8 => HostType.hI8
  | DType.i16 => HostType.hI16
  | DType.i32 => HostType.hI32
  | DType.i64 => HostType.hI64
  | DType.str => HostType.hStr

/-- Modelled from the spec: a probe is a name plus an ordered list of
argument type tags; zero arguments is a valid, first-class case. -/
structure Probe where
  name : String
  args : List DType
deriving DecidableEq

/-- Modelled from the spec: a provider is a unique name plus an ordered
sequence of probes. -/
structure Provider where
  name : String
  probes : List Probe
deriving DecidableEq

/-- Modelled from the spec: a parsed D provider file (`dtrace_parser::File`):
an ordered sequence of providers, source order preserved. -/
structure File where
  providers : List Provider
deriving DecidableEq

/-- Modelled from the spec: identifier characters legal in a generated
symbol-name fragment (C-identifier character set). -/
def isIdentChar (c : Char) : Bool :=
  c.isAlpha || c.isDigit || c = '_'

/-- Modelled from the spec: a legal identifier is nonempty, starts with a
letter or underscore, and uses only symbol-name-fragment characters. -/
def isValidIdentifier (s : String) : Bool :=
  match s.toList with
  | [] => false
  | c :: cs => (c.isAlpha || c = '_') && cs.all isIdentChar

/-! ## Symbol naming and the three generators -/

/-- Modelled from the spec: the fixed scheme deriving the emitted C symbol
name from provider and probe name, `<provider>_<probe>`.  Both the ABI
declaration generator and the ABI trampoline generator use this single
function, which is the cross-artifact naming contract. -/
def symbolName (provider probe : String) : String :=
  provider ++ "_" ++ probe

/-- One function prototype of the ABI declaration artifact. -/
structure CPrototype where
  provider : String
  probe : String
  symbol : String
  params : List AbiType
deriving DecidableEq

/-- One function definition of the ABI trampoline artifact; the body is a
near-no-op placeholder rewritten later by the external tracing compiler. -/
structure CFunctionDef where
  provider : String
  probe : String
  symbol : String
  params : List AbiType
  body : String
deriving DecidableEq

/-- One per-probe entry of the host binding artifact: an is-active query
and a fire entry point whose expected argument types are the probe's host
types in declared order. -/
structure FireEntry where
  provider : String
  probe : String
  hostParams : List HostType
deriving DecidableEq

/-- Modelled from the spec: the ABI declaration generator
(`File::to_c_declaration`).  Emits one prototype per probe, named by
`symbolName`, parameters drawn from the probe's ABI types in declared
order. -/
def toCDeclaration (f : File) : List CPrototype :=
  f.providers.flatMap fun prov =>
    prov.probes.map fun pr =>
      { provider := prov.name
        probe := pr.name
        symbol := symbolName prov.name pr.name
        params := pr.args.map abiTypeOf }

/-- Modelled from the spec: the ABI trampoline generator
(`File::to_c_definition`).  Emits one near-no-op body per declared
prototype, with exactly the declaration generator's symbol names. -/
def toCDefinition (f : File) : List CFunctionDef :=
  f.providers.flatMap fun prov =>
    prov.probes.map fun pr =>
      { provider := prov.name
        probe := pr.name
        symbol := symbolName prov.name pr.name
        params := pr.args.map abiTypeOf
        body := "\x7b\x7d" }

/-- Modelled from the spec: the host binding generator
(`File::to_rust_impl`).  Emits, per probe, a fire entry point whose
expected argument types and count are those of the declared signature. -/
def toRustImpl (f : File) : List FireEntry :=
  f.providers.flatMap fun prov =>
    prov.probes.map fun pr =>
      { provider := prov.name
        probe := pr.name
        hostParams := pr.args.map hostTypeOf }

/-- The (provider, probe) name pairs of a file, in declaration order. -/
def probeNamePairs (f : File) : List (String × String) :=
  f.providers.flatMap fun prov =>
    prov.probes.map fun pr => (prov.name, pr.name)

/-! ## Invocation type-checker -/

/-- Modelled from the spec: call-site check failures, attributed to the
call site. -/
inductive CheckError
  | arityMismatch (probe : String) (expected actual : Nat)
  | typeMismatch (probe : String) (position : Nat)
      (expected actual : HostType)
deriving DecidableEq

/-- Modelled from the spec: width in bytes of a host integer type (strings
have no widening relation with integers). -/
def hostWidth : HostType → Nat
  | HostType.hU8 => 1
  | HostType.hU16 => 2
  | HostType.hU32 => 4
  | HostType.hU64 => 8
  | HostType.hI8 => 1
  | HostType.hI16 => 2
  | HostType.hI32 => 4
  | HostType.hI64 => 8
  | HostType.hStr => 0

/-- Whether a host type is an unsigned integer type. -/
def isUnsigned : HostType → Bool
  | HostType.hU8 => true
  | HostType.hU16 => true
  | HostType.hU32 => true
  | HostType.hU64 => true
  | _ => false

/-- Whether a host type is a signed integer type. -/
def isSigned : HostType → Bool
  | HostType.hI8 => true
  | HostType.hI16 => true
  | HostType.hI32 => true
  | HostType.hI64 => true
  | _ => false

/-- Modelled from the spec: a supplied value's type is acceptable at a
position when it is identical to the declared host type, or legally
widenable to it (same signedness, no narrowing). -/
def assignableTo (supplied declared : HostType) : Bool :=
  supplied = declared ||
    (isUnsigned supplied && isUnsigned declared &&
      decide (hostWidth supplied ≤ hostWidth declared)) ||
    (isSigned supplied && isSigned declared &&
      decide (hostWidth supplied ≤ hostWidth declared))

/-- Position-wise check of supplied host types against declared host
types, reporting the first mismatching position. -/
def checkArgsFrom (probe : String) (pos : Nat) :
    List HostType → List HostType → Except CheckError Unit
  | [], [] => Except.ok ()
  | d :: ds, s :: ss =>
    if assignableTo s d then checkArgsFrom probe (pos + 1) ds ss
    else Except.error (CheckError.typeMismatch probe pos d s)
  | ds, ss =>
    Except.error
      (CheckError.arityMismatch probe (pos + ds.length) (pos + ss.length))

/-- Modelled from the spec: the invocation type-checker, a pure decision
procedure run at the host language's own compile time against a probe's
declared signature and the call-site thunk's result tuple type.  Arity is
checked first and must match exactly; a zero-argument probe accepts only
the empty tuple. -/
def checkInvocation (pr : Probe) (supplied : List HostType) :
    Except CheckError Unit :=
  if supplied.length = pr.args.length then
    checkArgsFrom pr.name 0 (pr.args.map hostTypeOf) supplied
  else
    Except.error
      (CheckError.arityMismatch pr.name pr.args.length supplied.length)

/-- Modelled from the spec: instrumented code is generated for a call site
only when the invocation type-checker accepts it; a rejected call site
contributes no instrumented code at all. -/
def instrumentedCallsite (pr : Probe) (supplied : List HostType) :
    Option (String × List HostType) :=
  match checkInvocation pr supplied with
  | Except.ok _ => some (pr.name, supplied)
  | Except.error _ => none

/-! ## Artifact rendering -/

/-- Modelled from the spec: the C spelling of an ABI type. -/
def renderAbiType : AbiType → String
  | AbiType.abiU8 => "uint8_t"
  | AbiType.abiU16 => "uint16_t"
  | AbiType.abiU32 => "uint32_t"
  | AbiType.abiU64 => "uint64_t"
  | AbiType.abiI8 => "int8_t"
  | AbiType.abiI16 => "int16_t"
  | AbiType.abiI32 => "int32_t"
  | AbiType.abiI64 => "int64_t"
  | AbiType.abiPtr => "uintptr_t"

/-- Render one ABI declaration prototype as a line of C. -/
def renderCPrototype (p : CPrototype) : String :=
  "void " ++ p.symbol ++ "(" ++
    String.intercalate ", " (p.params.map renderAbiType) ++ ");"

/-- Render one ABI trampoline definition as a line of C. -/
def renderCFunctionDef (d : CFunctionDef) : String :=
  "void " ++ d.symbol ++ "(" ++
    String.intercalate ", " (d.params.map renderAbiType) ++ ") " ++ d.body

/-- Render one host-binding fire entry. -/
def renderFireEntry (e : FireEntry) : String :=
  "fire " ++ e.provider ++ "::" ++ e.probe ++ " arity " ++
    toString e.hostParams.length

/-- The ABI declaration artifact text (`File::to_c_declaration`). -/
def renderCDeclaration (f : File) : String :=
  String.intercalate "\n" ((toCDeclaration f).map renderCPrototype)

/-- The ABI trampoline artifact text (`File::to_c_definition`). -/
def renderCDefinition (f : File) : String :=
  String.intercalate "\n" ((toCDefinition f).map renderCFunctionDef)

/-- The host binding artifact text (`File::to_rust_impl`). -/
def renderRustImpl (f : File) : String :=
  String.intercalate "\n" ((toRustImpl f).map renderFireEntry)

/-! ## The command-line tool (`usdt/src/main.rs`) -/

/-- An observable side effect performed by the tool: writing a file or
printing to standard output. -/
inductive Effect
  | writeFile (path : String) (contents : String)
  | printOut (contents : String)
deriving DecidableEq

/-- Whether an effect writes a file. -/
def Effect.isWrite : Effect → Bool
  | Effect.writeFile _ _ => true
  | Effect.printOut _ => false

/-- The last path component of a path string (`Path::file_name`). -/
def lastComponentOf (path : String) : String :=
  (path.splitOn "/").reverse.headD path

/-- The portion of a file name before its last dot (`Path::file_stem`):
the whole name when there is no dot, or when the only dot is a leading
one. -/
def fileStemOf (fileName : String) : String :=
  match fileName.splitOn "." with
  | [] => fileName
  | [_] => fileName
  | "" :: [_] => fileName
  | parts => String.intercalate "." parts.dropLast

/-- The names and contents computed by `print_build_script`
(main.rs lines 54-72) from the canonicalized source path and the parsed
file: header, C wrapper source, object and library names, and the
autogenerated C wrapper source text. -/
structure BuildScript where
  sourceFilename : String
  headerName : String
  sourceName : String
  dObjectName : String
  cObjectName : String
  libName : String
  cSource : String
deriving DecidableEq

/-- The C wrapper source assembled in `print_build_script`
(main.rs lines 63-72): a provenance comment, the stdint and generated
header includes, and the ABI trampoline definitions. -/
def cSourceFor (sourceFilename headerName : String) (f : File) : String :=
  String.intercalate "\n"
    [ "// Autogenerated C wrappers to DTrace probes in \"" ++
        sourceFilename ++ "\"\n"
    , "#include <stdint.h>"
    , "#include \"" ++ headerName ++ "\"\n"
    , renderCDefinition f ]

/-- The build-script data computed by `print_build_script`
(main.rs lines 54-72) for a canonicalized source path and parsed file. -/
def generatedBuildScript (canonPath : String) (f : File) : BuildScript :=
  let basename := fileStemOf (lastComponentOf canonPath)
  { sourceFilename := canonPath
    headerName := basename ++ ".h"
    sourceName := basename ++ "-wrapper.c"
    dObjectName := basename ++ ".o"
    cObjectName := basename ++ "-wrapper.o"
    libName := basename
    cSource := cSourceFor canonPath (basename ++ ".h") f }

/-- A build-orchestration step performed by the emitted `build.rs` script
when it runs (the body of the `quote!` block, main.rs lines 74-141). -/
inductive BuildStep
  | dtraceHeader (sourceFile headerPath : String)
  | writeWrapperSource (path contents : String)
  | compileC (sourcePath objectName : String)
  | dtraceG (sourceFile cObjectPath dObjectPath : String)
  | archiveLib (objects : List String) (libName : String)
deriving DecidableEq

/-- The kind of a build step, ignoring its operands. -/
inductive StepKind
  | header
  | writeSource
  | compileC
  | dtraceG
  | archive
deriving DecidableEq

/-- Project each build step to its kind. -/
def stepKindOf : BuildStep → StepKind
  | BuildStep.dtraceHeader _ _ => StepKind.header
  | BuildStep.writeWrapperSource _ _ => StepKind.writeSource
  | BuildStep.compileC _ _ => StepKind.compileC
  | BuildStep.dtraceG _ _ _ => StepKind.dtraceG
  | BuildStep.archiveLib _ _ => StepKind.archive

/-- The kinds of a list of build steps, in order. -/
def stepKinds (steps : List BuildStep) : List StepKind :=
  steps.map stepKindOf

/-- Whether a step is the tracing-compiler object-rewriting step
(`dtrace -G`). -/
def BuildStep.isDtraceG : BuildStep → Bool
  | BuildStep.dtraceG _ _ _ => true
  | _ => false

/-- The object lists archived by a list of build steps. -/
def archivedObjects (steps : List BuildStep) : List (List String) :=
  steps.filterMap fun s =>
    match s with
    | BuildStep.archiveLib objs _ => some objs
    | _ => none

/-- The steps the emitted `build.rs` performs when run on a target, in
program order (main.rs lines 81-140): generate the header with
`dtrace -h`, write the C wrapper source, compile it with `cc`, run
`dtrace -G` against the object — compiled out on macOS by
`#\x5bcfg(not(target_os = "macos"))\x5d` — and archive into a static
library (only the C object on macOS, both objects elsewhere). -/
def runBuildScript (macos : Bool) (outDir : String) (b : BuildScript) :
    List BuildStep :=
  let headerPath := outDir ++ "/" ++ b.headerName
  let sourcePath := outDir ++ "/" ++ b.sourceName
  let cObjectPath := outDir ++ "/" ++ b.cObjectName
  let dObjectPath := outDir ++ "/" ++ b.dObjectName
  [ BuildStep.dtraceHeader b.sourceFilename headerPath
  , BuildStep.writeWrapperSource sourcePath b.cSource
  , BuildStep.compileC sourcePath b.cObjectName ] ++
  (if macos then [] else
    [BuildStep.dtraceG b.sourceFilename cObjectPath dObjectPath]) ++
  [ if macos then BuildStep.archiveLib [cObjectPath] b.libName
    else BuildStep.archiveLib [cObjectPath, dObjectPath] b.libName ]

/-- The text of the generated `build.rs` script before formatting: a
deterministic rendering of the `quote!` token stream (main.rs lines
74-142), a pure function of the build-script data. -/
def renderBuildScript (b : BuildScript) : String :=
  String.intercalate "\n"
    [ "//! Autogenerated build.rs script to generate Rust-C-DTrace glue."
    , "dtrace -h -s " ++ b.sourceFilename ++ " -o " ++ b.headerName
    , "write " ++ b.sourceName
    , "cc " ++ b.sourceName ++ " -o " ++ b.cObjectName
    , "cfg-not-macos: dtrace -G -s " ++ b.sourceFilename ++ " " ++
        b.cObjectName ++ " -o " ++ b.dObjectName
    , "archive " ++ b.libName
    , "cargo:rerun-if-changed=" ++ b.sourceFilename ]

/-- Apply the result of spawning `rustfmt` (main.rs lines 144-157): when
the spawn succeeded the script text is piped through the formatter,
otherwise the unformatted script is used as-is. -/
def applyRustfmt (rustfmtSpawn : Option (String → String))
    (script : String) : String :=
  match rustfmtSpawn with
  | some f => f script
  | none => script

/-- `print_build_script` (main.rs lines 46-163), with its interactions
with the outside world passed as explicit inputs: the result of
canonicalizing the source path (`None` models a canonicalization panic),
the result of parsing the provider file, and the result of spawning
`rustfmt`.  Returns the effects performed in order, paired with `ok` on
normal return or `error` when the function panics; a panic performs no
further effects. -/
def printBuildScript (emit : String) (canonResult : Option String)
    (parseResult : Except String File)
    (rustfmtSpawn : Option (String → String)) :
    List Effect × Except String Unit :=
  match canonResult with
  | none => ([], Except.error "Could not canonicalize provider file")
  | some canonPath =>
    match parseResult with
    | Except.error e => ([], Except.error e)
    | Except.ok dfile =>
      let b := generatedBuildScript canonPath dfile
      let script := applyRustfmt rustfmtSpawn (renderBuildScript b)
      if emit = "file" then
        ([Effect.writeFile "build.rs" script], Except.ok ())
      else
        ([Effect.printOut script], Except.ok ())

/-- `print_formatted_output` (main.rs lines 165-176), with the parse
result passed explicitly: a parse failure panics before anything is
printed; otherwise the artifact chosen by `format` is printed. -/
def printFormattedOutput (format : String)
    (parseResult : Except String File) :
    List Effect × Except String Unit :=
  match parseResult with
  | Except.error _ =>
    ([], Except.error "Could not parse DTrace file")
  | Except.ok file =>
    match format with
    | "rust" => ([Effect.printOut (renderRustImpl file)], Except.ok ())
    | "decl" => ([Effect.printOut (renderCDeclaration file)], Except.ok ())
    | "defn" => ([Effect.printOut (renderCDefinition file)], Except.ok ())
    | _ => ([], Except.error "internal error: entered unreachable code")

/-- The command surface (`enum Cmd`, main.rs lines 14-44): exactly two
operations, each carrying a source file path. -/
inductive Cmd
  | buildgen (emit : String) (source : String)
  | fmt (format : String) (source : String)
deriving DecidableEq

/-- The ambient world a single invocation interacts with: the results of
the tool's inputs (path canonicalization, provider-file parsing, the
`rustfmt` spawn) plus ambient state the tool never reads — a clock and a
process id — used to express that generation is deterministic. -/
structure World where
  canonResult : Option String
  parseResult : Except String File
  rustfmtSpawn : Option (String → String)
  clock : Nat
  pid : Nat

/-- `main` (main.rs lines 178-184): dispatch on the parsed command. -/
def runCmd (c : Cmd) (w : World) : List Effect × Except String Unit :=
  match c with
  | Cmd.buildgen emit _ =>
    printBuildScript emit w.canonResult w.parseResult w.rustfmtSpawn
  | Cmd.fmt format _ =>
    printFormattedOutput format w.parseResult

/-- The process exit status of a run: 0 on normal return, the Rust panic
exit status 101 when the run panicked. -/
def exitStatusOf (r : List Effect × Except String Unit) : Nat :=
  match r.2 with
  | Except.ok _ => 0
  | Except.error _ => 101

/-- The `--emit` option's permitted values (main.rs line 25). -/
def emitPossibleValues : List String := ["file", "stdout"]

/-- Parsing of the `--emit` option by the argument parser: absent means
the default value `"file"`; a given value outside the permitted set is
rejected (main.rs line 25). -/
def parseEmitOpt (given : Option String) : Option String :=
  match given with
  | none => some "file"
  | some v => if v ∈ emitPossibleValues then some v else none

/-! ## Concrete example data -/

/-- The zero-argument probe of the compile-error test
(`tests/compile-errors/src/zero-arg-probe-type-check.rs`):
`probe my_probe();` inside `provider my_provider`. -/
def myProbeDecl : Probe := { name := "my_probe", args := [] }

/-- The provider of the compile-error test. -/
def myProviderDecl : Provider :=
  { name := "my_provider", probes := [myProbeDecl] }

/-- A two-argument probe used as concrete witness data. -/
def exampleProbe : Probe :=
  { name := "my_probe", args := [DType.u8, DType.str] }

/-- A provider holding `exampleProbe`. -/
def exampleProvider : Provider :=
  { name := "my_provider", probes := [exampleProbe] }

/-- A one-provider file used as concrete witness data. -/
def exampleFile : File := { providers := [exampleProvider] }

/-- The build-script data for `exampleFile` at a concrete source path. -/
def exampleBuildScript : BuildScript :=
  generatedBuildScript "/tmp/provider.d" exampleFile

/-- A world in which parsing the provider file failed. -/
def errWorld : World :=
  { canonResult := some "/tmp/provider.d"
    parseResult := Except.error "parse error"
    rustfmtSpawn := none
    clock := 0
    pid := 1 }

/-- A world in which every input succeeded, observed at one instant. -/
def detWorldA : World :=
  { canonResult := some "/tmp/provider.d"
    parseResult := Except.ok exampleFile
    rustfmtSpawn := none
    clock := 0
    pid := 17 }

/-- The same inputs as `detWorldA`, observed at a different instant and
in a different process. -/
def detWorldB : World :=
  { detWorldA with clock := 12345, pid := 99 }

/-! ## Theorems -/

/-- C1: for the zero-argument probe `my_probe` of provider `my_provider`,
a fire call site whose thunk evaluates to any non-empty value is rejected
by the compile-time invocation type-checker with `ArityMismatch`, and no
instrumented code is generated for that call site. -/
theorem zero_arg_probe_arity_mismatch (supplied : List HostType)
    (h : supplied ≠ []) :
    checkInvocation myProbeDecl supplied =
      Except.error
        (CheckError.arityMismatch "my_probe" 0 supplied.length)
    ∧ instrumentedCallsite myProbeDecl supplied = none := by
  cases supplied with
  | nil => exact absurd rfl h
  | cons a as =>
    constructor
    · simp [checkInvocation, myProbeDecl]
    · simp [instrumentedCallsite, checkInvocation, myProbeDecl]

/-- Witness for C1: the test's call site supplies a single string
(`|| "This should fail"`), giving `ArityMismatch` expected 0, actual 1. -/
theorem zero_arg_probe_arity_mismatch_witness :
    checkInvocation myProbeDecl [HostType.hStr] =
      Except.error (CheckError.arityMismatch "my_probe" 0 1)
    ∧ instrumentedCallsite myProbeDecl [HostType.hStr] = none :=
  zero_arg_probe_arity_mismatch [HostType.hStr] (by decide)

/-- C2: for every probe of a file, the ABI declaration artifact holds a
prototype for it whose parameter count equals the DSL-declared argument
count, the ABI trampoline artifact holds a body for it with the same
parameter count, and the host binding artifact holds a fire entry for it
with the same arity. -/
theorem probe_param_counts_agree (f : File) (prov : Provider) (pr : Probe)
    (hprov : prov ∈ f.providers) (hpr : pr ∈ prov.probes) :
    (∃ d ∈ toCDeclaration f, d.provider = prov.name ∧ d.probe = pr.name ∧
      d.params.length = pr.args.length) ∧
    (∃ d ∈ toCDefinition f, d.provider = prov.name ∧ d.probe = pr.name ∧
      d.params.length = pr.args.length) ∧
    (∃ e ∈ toRustImpl f, e.provider = prov.name ∧ e.probe = pr.name ∧
      e.hostParams.length = pr.args.length) := by
  refine
    ⟨⟨{ provider := prov.name, probe := pr.name,
        symbol := symbolName prov.name pr.name,
        params := pr.args.map abiTypeOf }, ?_, rfl, rfl, by simp⟩,
     ⟨{ provider := prov.name, probe := pr.name,
        symbol := symbolName prov.name pr.name,
        params := pr.args.map abiTypeOf, body := "\x7b\x7d" }, ?_, rfl, rfl,
        by simp⟩,
     ⟨{ provider := prov.name, probe := pr.name,
        hostParams := pr.args.map hostTypeOf }, ?_, rfl, rfl, by simp⟩⟩
  · exact List.mem_flatMap.mpr ⟨prov, hprov, List.mem_map.mpr ⟨pr, hpr, rfl⟩⟩
  · exact List.mem_flatMap.mpr ⟨prov, hprov, List.mem_map.mpr ⟨pr, hpr, rfl⟩⟩
  · exact List.mem_flatMap.mpr ⟨prov, hprov, List.mem_map.mpr ⟨pr, hpr, rfl⟩⟩

/-- Witness for C2: the three artifact entries for `exampleProbe` in
`exampleFile` all have parameter count 2. -/
theorem probe_param_counts_agree_witness :
    exampleProvider ∈ exampleFile.providers
    ∧ exampleProbe ∈ exampleProvider.probes
    ∧ ((∃ d ∈ toCDeclaration exampleFile,
          d.provider = exampleProvider.name ∧ d.probe = exampleProbe.name ∧
          d.params.length = exampleProbe.args.length) ∧
       (∃ d ∈ toCDefinition exampleFile,
          d.provider = exampleProvider.name ∧ d.probe = exampleProbe.name ∧
          d.params.length = exampleProbe.args.length) ∧
       (∃ e ∈ toRustImpl exampleFile,
          e.provider = exampleProvider.name ∧ e.probe = exampleProbe.name ∧
          e.hostParams.length = exampleProbe.args.length)) :=
  ⟨by decide, by decide,
    probe_param_counts_agree exampleFile exampleProvider exampleProbe
      (by decide) (by decide)⟩

/-- Counterexample for C3: the naming scheme `<provider>_<probe>` is not
injective on pairs of valid identifiers — the distinct pairs
`("a_b", "c")` and `("a", "b_c")`, all four names being legal
identifiers, collide on the emitted symbol `a_b_c`. -/
theorem symbol_scheme_not_injective :
    symbolName "a_b" "c" = symbolName "a" "b_c"
    ∧ "a_b" ≠ "a"
    ∧ isValidIdentifier "a_b" = true
    ∧ isValidIdentifier "c" = true
    ∧ isValidIdentifier "a" = true
    ∧ isValidIdentifier "b_c" = true := by
  refine ⟨rfl, by decide, by decide, by decide, by decide, by decide⟩

/-- C3 (amended): the ABI declaration and ABI trampoline generators derive
their symbol names by the same fixed scheme `<provider>_<probe>` — the
scheme is shared but not injective when names contain underscores — and
the (provider, probe) name pairs appearing in all three generated
artifacts coincide with the file's probe name pairs, hence with each
other. -/
theorem artifact_names_consistent (f : File) :
    (toCDeclaration f).map CPrototype.symbol =
      (toCDefinition f).map CFunctionDef.symbol
    ∧ (toCDeclaration f).map CPrototype.symbol =
      (probeNamePairs f).map (fun p => symbolName p.1 p.2)
    ∧ (toCDeclaration f).map (fun d => (d.provider, d.probe)) =
      probeNamePairs f
    ∧ (toCDefinition f).map (fun d => (d.provider, d.probe)) =
      probeNamePairs f
    ∧ (toRustImpl f).map (fun e => (e.provider, e.probe)) =
      probeNamePairs f := by
  refine ⟨?_, ?_, ?_, ?_, ?_⟩ <;>
    simp [toCDeclaration, toCDefinition, toRustImpl, probeNamePairs,
      List.map_flatMap, List.map_map, Function.comp_def]

/-- C4: emission is all-or-nothing — when parsing (or validation inside
the parser) fails, both operations perform no write or print effect at
all and terminate abnormally; in particular `Buildgen` parses the
provider file before writing anything, so no `build.rs` is left behind. -/
theorem no_artifacts_on_parse_failure (emit format e : String)
    (canonResult : Option String)
    (rustfmtSpawn : Option (String → String)) :
    (printBuildScript emit canonResult (Except.error e) rustfmtSpawn).1 = []
    ∧ exitStatusOf
        (printBuildScript emit canonResult (Except.error e) rustfmtSpawn)
        ≠ 0
    ∧ (printFormattedOutput format (Except.error e)).1 = []
    ∧ exitStatusOf (printFormattedOutput format (Except.error e)) ≠ 0 := by
  cases canonResult with
  | none =>
    exact ⟨rfl, (by decide : (101 : Nat) ≠ 0), rfl,
      (by decide : (101 : Nat) ≠ 0)⟩
  | some p =>
    exact ⟨rfl, (by decide : (101 : Nat) ≠ 0), rfl,
      (by decide : (101 : Nat) ≠ 0)⟩

/-- C5: the command surface is exactly two operations — `Buildgen` and
`Fmt` — each carrying a source file path, and any run whose parse of the
source file fails terminates the process with non-zero status. -/
theorem command_surface_two_ops :
    (∀ c : Cmd, (∃ emit source, c = Cmd.buildgen emit source) ∨
      (∃ format source, c = Cmd.fmt format source))
    ∧ (∀ (c : Cmd) (w : World) (msg : String),
        w.parseResult = Except.error msg →
        exitStatusOf (runCmd c w) ≠ 0) := by
  constructor
  · intro c
    cases c with
    | buildgen e s => exact Or.inl ⟨e, s, rfl⟩
    | fmt fo s => exact Or.inr ⟨fo, s, rfl⟩
  · intro c w msg h
    cases c with
    | buildgen e s =>
      cases hc : w.canonResult with
      | none => simp [runCmd, printBuildScript, exitStatusOf, hc]
      | some p => simp [runCmd, printBuildScript, exitStatusOf, hc, h]
    | fmt fo s => simp [runCmd, printFormattedOutput, exitStatusOf, h]

/-- Witness for C5: in a world whose parse failed, the `Fmt` run exits
with non-zero status. -/
theorem command_surface_two_ops_witness :
    errWorld.parseResult = Except.error "parse error"
    ∧ exitStatusOf (runCmd (Cmd.fmt "rust" "provider.d") errWorld) ≠ 0 :=
  ⟨rfl, command_surface_two_ops.2 (Cmd.fmt "rust" "provider.d") errWorld
    "parse error" rfl⟩

/-- Counterexample for C6: on a macOS target the emitted build script does
not perform the claimed five-step sequence — the tracing-compiler
object-rewriting step (`dtrace -G`) is compiled out there. -/
theorem build_steps_macos_counterexample :
    stepKinds (runBuildScript true "out" exampleBuildScript) ≠
      [StepKind.header, StepKind.writeSource, StepKind.compileC,
        StepKind.dtraceG, StepKind.archive] := by
  intro h
  simp [runBuildScript, stepKinds, stepKindOf] at h

/-- C6 (amended): on non-macOS targets the emitted build script performs
exactly the five steps — generate the header via the tracing compiler,
write the ABI trampoline C source, compile it with the native C compiler,
run the tracing compiler against the resulting object, archive into a
static library — in that fixed order; on macOS the tracing-compiler step
is omitted and the remaining steps keep the same order. -/
theorem build_steps_fixed_order (outDir : String) (b : BuildScript) :
    stepKinds (runBuildScript false outDir b) =
      [StepKind.header, StepKind.writeSource, StepKind.compileC,
        StepKind.dtraceG, StepKind.archive]
    ∧ stepKinds (runBuildScript true outDir b) =
      [StepKind.header, StepKind.writeSource, StepKind.compileC,
        StepKind.archive] :=
  ⟨rfl, rfl⟩

/-- C7: generation is deterministic — for either command, two runs whose
worlds agree on everything the tool actually reads (the canonicalized
path, the parsed file, the `rustfmt` spawn result) produce identical
effects, regardless of ambient clock or process id. -/
theorem generation_deterministic (c : Cmd) (w1 w2 : World)
    (hcanon : w1.canonResult = w2.canonResult)
    (hparse : w1.parseResult = w2.parseResult)
    (hfmt : w1.rustfmtSpawn = w2.rustfmtSpawn) :
    runCmd c w1 = runCmd c w2 := by
  cases c with
  | buildgen e s => simp only [runCmd, hcanon, hparse, hfmt]
  | fmt fo s => simp only [runCmd, hparse]

/-- Witness for C7: two runs at different clock instants and process ids
but over the same unchanged input file produce identical output. -/
theorem generation_deterministic_witness :
    detWorldA.clock ≠ detWorldB.clock
    ∧ runCmd (Cmd.buildgen "file" "provider.d") detWorldA =
      runCmd (Cmd.buildgen "file" "provider.d") detWorldB :=
  ⟨by decide,
    generation_deterministic (Cmd.buildgen "file" "provider.d")
      detWorldA detWorldB rfl rfl rfl⟩

/-- C8: a `rustfmt` spawn failure is never fatal for `Buildgen` — the run
returns normally whatever the spawn result is, and when the spawn fails
the unformatted generated script is emitted as-is. -/
theorem rustfmt_failure_not_fatal (emit canonPath : String) (dfile : File)
    (rustfmtSpawn : Option (String → String)) :
    (printBuildScript emit (some canonPath) (Except.ok dfile)
        rustfmtSpawn).2 = Except.ok ()
    ∧ (printBuildScript emit (some canonPath) (Except.ok dfile) none).1 =
      (if emit = "file" then
        [Effect.writeFile "build.rs"
          (renderBuildScript (generatedBuildScript canonPath dfile))]
      else
        [Effect.printOut
          (renderBuildScript (generatedBuildScript canonPath dfile))]) := by
  constructor
  · by_cases h : emit = "file" <;> simp [printBuildScript, h]
  · by_cases h : emit = "file" <;>
      simp [printBuildScript, applyRustfmt, h]

/-- C9: the emitted build script is target-conditional — on macOS it
performs no `dtrace -G` step and archives only the compiled C wrapper
object, while on other targets it runs `dtrace -G` and archives both the
C wrapper object and the tracing-compiler-produced object. -/
theorem build_script_target_conditional (outDir : String)
    (b : BuildScript) :
    (runBuildScript true outDir b).filter BuildStep.isDtraceG = []
    ∧ (runBuildScript false outDir b).filter BuildStep.isDtraceG =
      [BuildStep.dtraceG b.sourceFilename (outDir ++ "/" ++ b.cObjectName)
        (outDir ++ "/" ++ b.dObjectName)]
    ∧ archivedObjects (runBuildScript true outDir b) =
      [[outDir ++ "/" ++ b.cObjectName]]
    ∧ archivedObjects (runBuildScript false outDir b) =
      [[outDir ++ "/" ++ b.cObjectName, outDir ++ "/" ++ b.dObjectName]] :=
  ⟨rfl, rfl, rfl, rfl⟩

/-- C10: the `--emit` option accepts exactly `"file"` and `"stdout"` and
defaults to `"file"`; with `"file"` the generated script is written to a
file named `build.rs`, and with `"stdout"` the script is printed to
standard output instead, with no file written. -/
theorem emit_option_semantics :
    parseEmitOpt none = some "file"
    ∧ parseEmitOpt (some "file") = some "file"
    ∧ parseEmitOpt (some "stdout") = some "stdout"
    ∧ (∀ v : String, v ≠ "file" → v ≠ "stdout" →
        parseEmitOpt (some v) = none)
    ∧ (∀ (canonPath : String) (dfile : File)
        (rustfmtSpawn : Option (String → String)),
        (printBuildScript "file" (some canonPath) (Except.ok dfile)
            rustfmtSpawn).1 =
          [Effect.writeFile "build.rs"
            (applyRustfmt rustfmtSpawn
              (renderBuildScript (generatedBuildScript canonPath dfile)))]
        ∧ (printBuildScript "stdout" (some canonPath) (Except.ok dfile)
            rustfmtSpawn).1 =
          [Effect.printOut
            (applyRustfmt rustfmtSpawn
              (renderBuildScript (generatedBuildScript canonPath dfile)))]
        ∧ ((printBuildScript "stdout" (some canonPath) (Except.ok dfile)
            rustfmtSpawn).1.filter Effect.isWrite) = []) := by
  refine ⟨by decide, by decide, by decide, ?_, ?_⟩
  · intro v h1 h2
    simp [parseEmitOpt, emitPossibleValues, h1, h2]
  · intro canonPath dfile rustfmtSpawn
    exact ⟨rfl, rfl, rfl⟩

/-- Witness for C10: a value outside the permitted set is rejected by the
option parser. -/
theorem emit_option_semantics_witness :
    parseEmitOpt (some "both") = none :=
  emit_option_semantics.2.2.2.1 "both" (by decide) (by decide)

end Usdt
